import Mathlib

/-!
Verification of the export/compositing pipeline of the Stage visual
composition editor.

The definitions below are a shallow embedding of the TypeScript sources:

* `src/lib/export/export-service.ts` — the current export pipeline
  (`convertOklchToRGB`, `convertCSSStringToRGB`, `applyBlurToCanvas`,
  `applyNoiseToCanvas`, `exportBackground`, `exportKonvaStage`,
  `compositeCanvases`, `exportElement`);
* `src/lib/store/index.ts` — the superseded export variant that additionally
  contains `applyOpacityToCanvas`;
* `src/components/canvas/ClientCanvas.tsx` — the live canvas renderer
  (`has3DTransform`, the Konva main-image opacity, the eclipse frame).

Browser-supplied pixel operations (CSS blur filters, the `overlay` blend,
image resampling during a scaled `drawImage`, the watermark text raster and
the noise texture generator, whose module is not part of the sources) are
uninterpreted parameters collected in `CanvasPrims`; the canvas bookkeeping
(dimensions, allocation of fresh canvases versus drawing into an existing
one, branch structure) is modelled concretely.  Mutable `HTMLCanvasElement`
objects are modelled by a heap (a list of canvases indexed by allocation
order): an operation that creates a canvas allocates a fresh heap slot, and
an operation that draws through an existing canvas's 2d context overwrites
that canvas's slot in place.  `getContext('2d')` is assumed to succeed.
-/

namespace Stage

/-- An RGBA pixel; channels are rationals (0‥1 scale), `a` is the alpha. -/
structure Pixel where
  r : ℚ
  g : ℚ
  b : ℚ
  a : ℚ
deriving DecidableEq

/-- The fully transparent pixel: content of a freshly created canvas. -/
def Pixel.transparent : Pixel := ⟨0, 0, 0, 0⟩

/-- Standard source-over alpha compositing (straight alpha), the default
`drawImage` compositing mode of a canvas 2d context. -/
def Pixel.sourceOver (s d : Pixel) : Pixel :=
  let a := s.a + d.a * (1 - s.a)
  if a = 0 then Pixel.transparent
  else ⟨(s.r * s.a + d.r * d.a * (1 - s.a)) / a,
        (s.g * s.a + d.g * d.a * (1 - s.a)) / a,
        (s.b * s.a + d.b * d.a * (1 - s.a)) / a, a⟩

/-- Drawing a pixel with `ctx.globalAlpha = opacity` onto a transparent
canvas leaves its colour channels and multiplies its alpha. -/
def Pixel.scaleAlpha (opacity : ℚ) (p : Pixel) : Pixel :=
  { p with a := opacity * p.a }

/-- A bitmap: `width`/`height` in device pixels plus a total pixel map. -/
structure Canvas where
  width : Nat
  height : Nat
  px : Nat → Nat → Pixel

/-- `document.createElement('canvas')` with the given dimensions set:
every pixel is transparent. -/
def blankCanvas (w h : Nat) : Canvas :=
  ⟨w, h, fun _ _ => Pixel.transparent⟩

/-- Identity of a mutable `HTMLCanvasElement` in the heap model. -/
abbrev CanvasId := Nat

/-- The heap of live canvases, indexed by allocation order. -/
abbrev Heap := List Canvas

/-- Read a canvas from the heap. -/
def Heap.get (h : Heap) (i : CanvasId) : Canvas :=
  h.getD i (blankCanvas 0 0)

/-- Allocate a fresh canvas (`document.createElement('canvas')`). -/
def Heap.alloc (h : Heap) (c : Canvas) : Heap × CanvasId :=
  (h ++ [c], h.length)

/-- Overwrite an existing canvas in place (drawing through its context). -/
def Heap.put (h : Heap) (i : CanvasId) (c : Canvas) : Heap :=
  h.set i c

/-- Options record taken by `addWatermarkToCanvas` at its call site in
`exportElement` (src/lib/export/export-service.ts lines 996-1001). -/
structure WatermarkOptions where
  text : String
  position : String
  backgroundColor : String
  textColor : String
deriving DecidableEq

/-- The literal options passed to `addWatermarkToCanvas` by `exportElement`. -/
def watermarkConfig : WatermarkOptions :=
  { text := "stage", position := "bottom-right",
    backgroundColor := "transparent",
    textColor := "rgba(255, 255, 255, 0.7)" }

/-- Browser / external-module pixel primitives, uninterpreted.  Each field
produces the pixel data resulting from one browser drawing operation that
the sources delegate to the platform:

* `blurData amount src` — the data of a filtered
  `ctx.filter = blur(amount); ctx.drawImage(src, 0, 0)` onto a fresh
  transparent canvas;
* `overlayFill alpha tex dst` — the data after
  `ctx.globalCompositeOperation = 'overlay'; ctx.globalAlpha = alpha;
  ctx.fillStyle = createPattern(tex, 'repeat'); ctx.fillRect(...)` over the
  already drawn content `dst`;
* `noiseGen w h intensity` — `generateNoiseTexture` from the export-utils
  module, which is not among the sources (spec §4.2: a `w`×`h` tileable
  grayscale grain bitmap);
* `resample src w h` — the data of a smoothed `drawImage` of `src` scaled
  to a `w`×`h` destination rectangle;
* `pasteData dst src sx sy` — the data after
  `ctx.drawImage(src, 0, 0, src.width, src.height, sx, sy, src.width,
  src.height)` over the existing content `dst`;
* `addWatermarkData c opts` — the data of `c` after `addWatermarkToCanvas`
  (the watermark module is not among the sources) has drawn the watermark
  text onto it in place. -/
structure CanvasPrims where
  blurData : ℚ → Canvas → Nat → Nat → Pixel
  overlayFill : ℚ → Canvas → Canvas → Nat → Nat → Pixel
  noiseGen : Nat → Nat → ℚ → Canvas
  resample : Canvas → Nat → Nat → Nat → Nat → Pixel
  pasteData : Canvas → Canvas → ℚ → ℚ → Nat → Nat → Pixel
  addWatermarkData : Canvas → WatermarkOptions → Nat → Nat → Pixel

/-- A live Konva stage: display dimensions plus the Konva-internal
rasterizer (`stage.toDataURL {quality, pixelRatio}` followed by decoding
the data URL into a bitmap), abstracted as `render pixelRatio quality`. -/
structure KStage where
  width : ℚ
  height : ℚ
  render : ℚ → ℚ → Canvas

/-- The `perspective3D` configuration record (src/types / store). -/
structure Perspective3D where
  perspective : ℚ
  rotateX : ℚ
  rotateY : ℚ
  rotateZ : ℚ
  translateX : ℚ
  translateY : ℚ
  scale : ℚ
deriving DecidableEq

/-- `has3DTransform` exactly as computed in ClientCanvas.tsx lines 290-296
(and re-computed identically in `exportElement`): any rotation or
translation non-zero, or scale different from 1. -/
def has3DTransform (p : Perspective3D) : Bool :=
  decide (p.rotateX ≠ 0 ∨ p.rotateY ≠ 0 ∨ p.rotateZ ≠ 0 ∨
          p.translateX ≠ 0 ∨ p.translateY ≠ 0 ∨ p.scale ≠ 1)

/-- The opacity given to the flat `KonvaImage` main-image node,
ClientCanvas.tsx line 764: `opacity={has3DTransform ? 0 : imageOpacity}`. -/
def konvaMainImageOpacity (p : Perspective3D) (imageOpacity : ℚ) : ℚ :=
  if has3DTransform p then 0 else imageOpacity

/-- `applyBlurToCanvas` (export-service.ts lines 163-187, identical copy in
store/index.ts lines 830-854): `blurAmount <= 0` returns the input canvas
itself; otherwise a fresh canvas with the input's dimensions is created and
the input is drawn through a `blur(blurAmount)` context filter. -/
def applyBlurToCanvas (P : CanvasPrims) (h : Heap) (id : CanvasId)
    (blurAmount : ℚ) : Heap × CanvasId :=
  if blurAmount ≤ 0 then (h, id)
  else
    let c := h.get id
    h.alloc { width := c.width, height := c.height,
              px := P.blurData blurAmount c }

/-- `applyOpacityToCanvas` (store/index.ts lines 864-893): `opacity >= 1`
returns the input canvas itself; `opacity <= 0` returns a fresh,
never-drawn (hence fully transparent) canvas of the input's dimensions;
otherwise the input is drawn onto a fresh canvas with
`ctx.globalAlpha = opacity`. -/
def applyOpacityToCanvas (h : Heap) (id : CanvasId) (opacity : ℚ) :
    Heap × CanvasId :=
  if 1 ≤ opacity then (h, id)
  else if opacity ≤ 0 then
    let c := h.get id
    h.alloc (blankCanvas c.width c.height)
  else
    let c := h.get id
    h.alloc { width := c.width, height := c.height,
              px := fun x y => Pixel.scaleAlpha opacity (c.px x y) }

/-- The noise texture used by `applyNoiseToCanvas`: the bitmap extracted
from the live preview's noise overlay when that element is found, else the
regenerated 200×200 texture (`generateNoiseTexture(200, 200, intensity)`). -/
def noiseTexOf (P : CanvasPrims) (previewNoise : Option Canvas)
    (intensity : ℚ) : Canvas :=
  match previewNoise with
  | some t => t
  | none => P.noiseGen 200 200 intensity

/-- `applyNoiseToCanvas` (export-service.ts lines 274-333):
`noiseIntensity <= 0` returns the input canvas itself; otherwise a fresh
canvas of the input's dimensions is created, the input is drawn onto it
first, and the noise texture is then pattern-filled over it with the
`overlay` blend mode at `globalAlpha = noiseIntensity`.  The `width`,
`height` and `scale` parameters of the source are accepted but unused, as
in the source (which reads `canvas.width`/`canvas.height` instead). -/
def applyNoiseToCanvas (P : CanvasPrims) (h : Heap) (id : CanvasId)
    (noiseIntensity : ℚ) (_width _height _scale : ℚ)
    (previewNoise : Option Canvas) : Heap × CanvasId :=
  if noiseIntensity ≤ 0 then (h, id)
  else
    let c := h.get id
    h.alloc { width := c.width, height := c.height,
              px := P.overlayFill noiseIntensity
                      (noiseTexOf P previewNoise noiseIntensity) c }

/-- The compositing tail of `exportBackground` (export-service.ts lines
628-642), applied to the bitmap captured by html2canvas: blur the captured
background first (scaled by the export scale) when `backgroundBlur > 0`,
then composite the noise overlay on top when `backgroundNoise > 0`
(intensity converted from the 0-100 percentage). -/
def exportBackgroundFinish (P : CanvasPrims) (h : Heap)
    (captured : CanvasId) (width height scale : ℚ)
    (backgroundBlur backgroundNoise : ℚ) (previewNoise : Option Canvas) :
    Heap × CanvasId :=
  let blurred :=
    if 0 < backgroundBlur then
      applyBlurToCanvas P h captured (backgroundBlur * scale)
    else (h, captured)
  if 0 < backgroundNoise then
    applyNoiseToCanvas P blurred.1 blurred.2 (backgroundNoise / 100)
      width height scale previewNoise
  else blurred

/-- The 3D-overlay paste of `exportElement` (export-service.ts lines
963-976): when the captured canvas has positive dimensions, the capture is
drawn through the Konva canvas's own 2d context at the scaled offset —
overwriting the Konva bitmap in place; no new canvas is created. -/
def paste3DOntoKonva (P : CanvasPrims) (h : Heap) (konvaId : CanvasId)
    (transformed : Canvas) (scaledX scaledY : ℚ) : Heap :=
  if 0 < transformed.width ∧ 0 < transformed.height then
    h.put konvaId { width := (h.get konvaId).width,
                    height := (h.get konvaId).height,
                    px := P.pasteData (h.get konvaId) transformed
                            scaledX scaledY }
  else h

/-- An HTML canvas dimension computed from a rational quantity: the
`canvas.width`/`canvas.height` setters truncate to a non-negative
integer. -/
def dimOf (q : ℚ) : Nat := q.floor.toNat

/-- `compositeCanvases` (export-service.ts lines 840-867): a fresh canvas
of `width*scale × height*scale` device pixels, the background drawn scaled
to fill it, the Konva canvas drawn scaled on top (source-over). -/
def compositeCanvases (P : CanvasPrims)
    (backgroundCanvas konvaCanvas : Canvas) (width height : Nat)
    (scale : ℚ) : Canvas :=
  let fw := dimOf ((width : ℚ) * scale)
  let fh := dimOf ((height : ℚ) * scale)
  { width := fw, height := fh,
    px := fun x y =>
      Pixel.sourceOver (P.resample konvaCanvas fw fh x y)
        (P.resample backgroundCanvas fw fh x y) }

/-- The successful body of `exportKonvaStage` (export-service.ts lines
756-826): rasterize the stage at pixel ratio
`scale * max(targetWidth/liveWidth, targetHeight/liveHeight)` via
`stage.toDataURL`, decode the data URL, and draw the decoded bitmap scaled
onto a fresh `targetWidth*scale × targetHeight*scale` canvas.  The
temporary hiding of the background layer during `toDataURL` (a Konva
side effect restored before returning) is elided. -/
def konvaStageCanvas (P : CanvasPrims) (st : KStage)
    (targetWidth targetHeight : Nat) (scale : ℚ) (quality : ℚ) : Canvas :=
  let originalWidth := st.width
  let originalHeight := st.height
  let scaleX := (targetWidth : ℚ) / originalWidth
  let scaleY := (targetHeight : ℚ) / originalHeight
  -- `exportPixelRatio` in the source
  let exportScaleFactor := scale * max scaleX scaleY
  let tempCanvas := st.render exportScaleFactor quality
  let fw := dimOf ((targetWidth : ℚ) * scale)
  let fh := dimOf ((targetHeight : ℚ) * scale)
  { width := fw, height := fh, px := P.resample tempCanvas fw fh }

/-- `exportKonvaStage` (export-service.ts lines 744-834): fail when the
stage handle is null, otherwise produce `konvaStageCanvas`. -/
def exportKonvaStage (P : CanvasPrims) (stage : Option KStage)
    (targetWidth targetHeight : Nat) (scale : ℚ) (quality : ℚ) :
    Except String Canvas :=
  match stage with
  | none => .error "Konva stage not found"
  | some st =>
    .ok (konvaStageCanvas P st targetWidth targetHeight scale quality)

/-- `canvas.toBlob` for a PNG: succeeds with the canvas content whenever
the canvas has a non-degenerate pixel area; the pipeline treats the blob
as opaque bytes, so the model keeps the canvas itself as the content. -/
def canvasToBlob (c : Canvas) (_quality : ℚ) : Option Canvas :=
  if c.width = 0 ∨ c.height = 0 then none else some c

/-- `canvas.toDataURL('image/png', quality)`: the degenerate `"data:,"`
string for a zero-area canvas, a non-empty PNG data URL otherwise. -/
def canvasToDataURL (c : Canvas) (_quality : ℚ) : String :=
  if c.width = 0 ∨ c.height = 0 then "data:," else "data:image/png;base64,png"

/-- Step 4 of `exportElement`: `addWatermarkToCanvas(finalCanvas, {text:
'stage', position: 'bottom-right', backgroundColor: 'transparent',
textColor: 'rgba(255, 255, 255, 0.7)'})` — drawn in place onto the final
canvas, so dimensions are preserved. -/
def applyWatermark (P : CanvasPrims) (c : Canvas) : Canvas :=
  { c with px := P.addWatermarkData c watermarkConfig }

/-- The export options record (export-service.ts lines 19-25); the format
is the constant `'png'`. -/
structure ExportOptions where
  quality : ℚ
  scale : ℚ
  exportWidth : Nat
  exportHeight : Nat

/-- The DOM / browser facts `exportElement` consults, snapshotted:
whether `document.getElementById(elementId)` finds the render card, the
global Konva stage handle, the outcome of the html2canvas background
capture (the DOM-heavy first part of `exportBackground`), the preview
noise texture if extractable, presence of the `[data-3d-overlay]` node and
of the inner `position: relative` container, the measured live rectangles
(reduced to the overlay's offset inside the inner container and the inner
container's size), and the outcome of
`capture3DTransformWithModernScreenshot` (an `Except` covering both a
missing node and a throwing `domToCanvas`). -/
structure ExportEnv where
  elementExists : Bool
  konvaStage : Option KStage
  backgroundCapture : Except String Canvas
  previewNoise : Option Canvas
  overlayNodePresent : Bool
  innerContainerPresent : Bool
  overlayRelativeX : ℚ
  overlayRelativeY : ℚ
  innerWidth : ℚ
  innerHeight : ℚ
  captureResult : Except String Canvas

/-- The `{dataURL, blob}` result of a successful export; the blob's
content is the canvas it encodes. -/
structure ExportOutcome where
  dataURL : String
  blobContent : Canvas

/-- The step-2.5 block of `exportElement` (export-service.ts lines
922-984): when a perspective record and an image source are given and the
transform is non-default, look up the overlay node and the inner
container, capture the 3D overlay, and paste it onto the Konva canvas; a
missing node skips the paste, and an error thrown by the capture is caught
(logged) and the paste is skipped — the heap is returned unchanged in all
of those cases. -/
def exportElement3DStep (P : CanvasPrims) (env : ExportEnv)
    (options : ExportOptions) (perspective3D : Option Perspective3D)
    (imageSrc : Option String) (h : Heap) (konvaId : CanvasId) : Heap :=
  match perspective3D, imageSrc with
  | some p, some _ =>
    if has3DTransform p then
      if env.overlayNodePresent then
        if env.innerContainerPresent then
          match env.captureResult with
          | .error _ => h
          | .ok transformed =>
            let scaleX :=
              ((options.exportWidth : ℚ) * options.scale) / env.innerWidth
            let scaleY :=
              ((options.exportHeight : ℚ) * options.scale) / env.innerHeight
            paste3DOntoKonva P h konvaId transformed
              (env.overlayRelativeX * scaleX) (env.overlayRelativeY * scaleY)
        else h
      else h
    else h
  | _, _ => h

/-- `exportElement` (export-service.ts lines 872-1027), the current export
pipeline: precondition checks on the render card and the Konva stage;
html2canvas background capture followed by the blur/noise compositing tail;
Konva stage rasterization; the optional 3D-overlay capture-and-paste with
its swallowing `try/catch`; compositing of the background and Konva
bitmaps; the unconditional watermark; PNG encoding to a blob and a data
URL with the degenerate-data-URL check. -/
def exportElement (P : CanvasPrims) (env : ExportEnv)
    (options : ExportOptions) (perspective3D : Option Perspective3D)
    (imageSrc : Option String) (backgroundBlur backgroundNoise : ℚ)
    (h : Heap) : Except String (Heap × ExportOutcome) :=
  if env.elementExists = false then
    .error "Image render card not found. Please ensure an image is uploaded."
  else match env.konvaStage with
  | none => .error "Konva stage not found"
  | some _ =>
    match env.backgroundCapture with
    | .error e => .error e
    | .ok captured =>
      let a1 := h.alloc captured
      let bg := exportBackgroundFinish P a1.1 a1.2
        (options.exportWidth : ℚ) (options.exportHeight : ℚ) options.scale
        backgroundBlur backgroundNoise env.previewNoise
      match exportKonvaStage P env.konvaStage options.exportWidth
        options.exportHeight options.scale options.quality with
      | .error e => .error e
      | .ok konvaCanvas =>
        let a2 := bg.1.alloc konvaCanvas
        let h4 := exportElement3DStep P env options perspective3D imageSrc
          a2.1 a2.2
        let finalCanvas := compositeCanvases P (h4.get bg.2) (h4.get a2.2)
          options.exportWidth options.exportHeight options.scale
        let watermarked := applyWatermark P finalCanvas
        match canvasToBlob watermarked options.quality with
        | none => .error "Failed to create blob from canvas"
        | some blob =>
          let dataURL := canvasToDataURL watermarked options.quality
          if dataURL = "" ∨ dataURL = "data:," then
            .error "Failed to generate image data URL"
          else .ok (h4, { dataURL := dataURL, blobContent := blob })

/-- Substring test over character lists (JavaScript `String.includes`). -/
def containsSeq (needle : List Char) : List Char → Bool
  | [] => needle.isEmpty
  | c :: rest => needle.isPrefixOf (c :: rest) || containsSeq needle rest

/-- JavaScript `s.includes(sub)`. -/
def jsIncludes (s sub : String) : Bool :=
  containsSeq sub.toList s.toList

/-- Scan for the `([^)]+)` part of the regex `oklch\(([^)]+)\)` after an
`oklch(` opener: collect characters up to the first `)`; a match needs at
least one collected character and a closing parenthesis.  Returns the
collected group and the characters after the `)`. -/
def scanInner (acc : List Char) : List Char → Option (List Char × List Char)
  | [] => none
  | c :: rest =>
    if c = ')' then
      if acc.isEmpty then none else some (acc.reverse, rest)
    else scanInner (c :: acc) rest

/-- Leftmost match of the regex `oklch\(([^)]+)\)`, as
`(prefix before the match, captured group, suffix after the match)`. -/
def findOklchMatch : List Char → Option (List Char × List Char × List Char)
  | [] => none
  | c :: rest =>
    match (if ("oklch(".toList.isPrefixOf (c :: rest)) then
             scanInner [] ((c :: rest).drop 6)
           else none) with
    | some (inner, post) => some ([], inner, post)
    | none =>
      (findOklchMatch rest).map (fun t => (c :: t.1, t.2.1, t.2.2))

/-- JavaScript `s.split(/\s+/)` over character lists: tokens separated by
maximal whitespace runs, with an empty leading (resp. trailing) token when
the string starts (resp. ends) with whitespace.  Fueled recursion: every
step consumes at least one character, so the input's length is always
enough fuel. -/
def splitWSFuel : Nat → List Char → List Char → List (List Char)
  | 0, acc, _ => [acc.reverse]
  | _ + 1, acc, [] => [acc.reverse]
  | fuel + 1, acc, c :: rest =>
    if c.isWhitespace then
      acc.reverse :: splitWSFuel fuel [] (rest.dropWhile Char.isWhitespace)
    else splitWSFuel fuel (c :: acc) rest

/-- JavaScript `s.split(/\s+/)`. -/
def splitWS (l : List Char) : List (List Char) :=
  splitWSFuel l.length [] l

/-- `convertOklchToRGB` (export-service.ts lines 35-65).  The function is
parameterized by `browserComputedColor`, the browser's computed-style
read-back (`getComputedStyle(tempEl).color` after setting the colour on a
throwaway element); the JavaScript `computed || oklchColor` fallback fires
on the empty string.  Note the parsed L/C/H floats are never used: after a
successful match with at least three whitespace-separated components the
whole input is handed to the browser. -/
def convertOklchToRGB (browserComputedColor : String → String)
    (oklchColor : String) : String :=
  if !(jsIncludes oklchColor "oklch") then oklchColor
  else
    match findOklchMatch oklchColor.toList with
    | none => oklchColor
    | some (_, inner, _) =>
      let values := splitWS inner
      if values.length < 3 then oklchColor
      else
        let computed := browserComputedColor oklchColor
        if computed = "" then oklchColor else computed

/-- The global replacement `cssString.replace(/oklch\([^)]+\)/g, m =>
convertOklchToRGB(m))`: each leftmost match is replaced by
`convertOklchToRGB` of the matched text, scanning resumes after the
match.  Fueled recursion: every match consumes at least one character, so
the input's length is always enough fuel. -/
def replaceOklchFuel (browserComputedColor : String → String) :
    Nat → List Char → List Char
  | 0, l => l
  | _fuel + 1, l =>
    match findOklchMatch l with
    | none => l
    | some (pre, inner, post) =>
      pre ++ (convertOklchToRGB browserComputedColor
                (String.mk ("oklch(".toList ++ inner ++ [')']))).toList
          ++ replaceOklchFuel browserComputedColor _fuel post

/-- The global `oklch` replacement over a character list. -/
def replaceOklchAll (browserComputedColor : String → String)
    (l : List Char) : List Char :=
  replaceOklchFuel browserComputedColor l.length l

/-- `convertCSSStringToRGB` (export-service.ts lines 70-79): when the
string mentions `oklch`, replace every `oklch(...)` token via
`convertOklchToRGB`; otherwise return the string unchanged. -/
def convertCSSStringToRGB (browserComputedColor : String → String)
    (cssString : String) : String :=
  if jsIncludes cssString "oklch" then
    String.mk (replaceOklchAll browserComputedColor cssString.toList)
  else cssString

/-- Ideal coverage of a Konva rounded rectangle with top-left corner
`(x, y)`, size `w × h` and corner radius `r` (clamped by Konva to half the
width and height), at a point `(px0, py0)`: inside the bounding box, and
inside the corner circle whenever the point falls into one of the four
corner squares.  Closed (boundary included) — the region an ideal fill
paints. -/
def roundedRectContains (x y w h r px0 py0 : ℚ) : Bool :=
  let rr := min r (min (w / 2) (h / 2))
  decide (x ≤ px0) && decide (px0 ≤ x + w) &&
  decide (y ≤ py0) && decide (py0 ≤ y + h) &&
  (if px0 < x + rr ∧ py0 < y + rr then
     decide ((px0 - (x + rr)) ^ 2 + (py0 - (y + rr)) ^ 2 ≤ rr ^ 2)
   else true) &&
  (if x + w - rr < px0 ∧ py0 < y + rr then
     decide ((px0 - (x + w - rr)) ^ 2 + (py0 - (y + rr)) ^ 2 ≤ rr ^ 2)
   else true) &&
  (if px0 < x + rr ∧ y + h - rr < py0 then
     decide ((px0 - (x + rr)) ^ 2 + (py0 - (y + h - rr)) ^ 2 ≤ rr ^ 2)
   else true) &&
  (if x + w - rr < px0 ∧ y + h - rr < py0 then
     decide ((px0 - (x + w - rr)) ^ 2 + (py0 - (y + h - rr)) ^ 2 ≤ rr ^ 2)
   else true)

/-- Strict interior of the same rounded rectangle: all comparisons strict
(the corner-square tests are unchanged so that the strict region is
contained in the closed one). -/
def roundedRectStrictInterior (x y w h r px0 py0 : ℚ) : Bool :=
  let rr := min r (min (w / 2) (h / 2))
  decide (x < px0) && decide (px0 < x + w) &&
  decide (y < py0) && decide (py0 < y + h) &&
  (if px0 < x + rr ∧ py0 < y + rr then
     decide ((px0 - (x + rr)) ^ 2 + (py0 - (y + rr)) ^ 2 < rr ^ 2)
   else true) &&
  (if x + w - rr < px0 ∧ py0 < y + rr then
     decide ((px0 - (x + w - rr)) ^ 2 + (py0 - (y + rr)) ^ 2 < rr ^ 2)
   else true) &&
  (if px0 < x + rr ∧ y + h - rr < py0 then
     decide ((px0 - (x + rr)) ^ 2 + (py0 - (y + h - rr)) ^ 2 < rr ^ 2)
   else true) &&
  (if x + w - rr < px0 ∧ y + h - rr < py0 then
     decide ((px0 - (x + w - rr)) ^ 2 + (py0 - (y + h - rr)) ^ 2 < rr ^ 2)
   else true)

/-- `eclipseBorder` (ClientCanvas.tsx line 252): `frame.width + 2` when
the eclipse frame is shown. -/
def eclipseBorderOf (frameWidth : ℚ) : ℚ := frameWidth + 2

/-- The eclipse frame (ClientCanvas.tsx lines 621-641) rendered on its
(initially empty) Konva layer region, as an ideal pixel map over layer
coordinates: first a filled rounded rectangle in the frame colour covering
`framedW × framedH` with corner radius `radius + eclipseBorder`, then a
`destination-out` filled rounded rectangle inset by `eclipseBorder` with
corner radius `radius` — `destination-out` keeps destination colour and
multiplies destination alpha by one minus source coverage.  The optional
drop shadow of the outer rectangle is disabled (`shadow.enabled = false`
spreads no shadow props). -/
def eclipseFramePx (framedW framedH eclipseBorder radius : ℚ)
    (frameColor : Pixel) (px0 py0 : ℚ) : Pixel :=
  let base :=
    if roundedRectContains 0 0 framedW framedH (radius + eclipseBorder)
         px0 py0 then frameColor
    else Pixel.transparent
  let srcA : ℚ :=
    if roundedRectContains eclipseBorder eclipseBorder
         (framedW - 2 * eclipseBorder) (framedH - 2 * eclipseBorder)
         radius px0 py0 then 1
    else 0
  { base with a := base.a * (1 - srcA) }

/-- A concrete instance of the browser primitives, used to evaluate the
model at concrete inputs: blur and overlay keep the destination data, the
watermark keeps the canvas data, resampling samples nearest pixels, and
the paste draws the source over the destination at the (floored) offset. -/
def evalPrims : CanvasPrims where
  blurData := fun _ c => c.px
  overlayFill := fun _ _ dst => dst.px
  noiseGen := fun w h _ => blankCanvas w h
  resample := fun c _ _ x y => c.px x y
  pasteData := fun dst src sx sy x y =>
    if sx ≤ (x : ℚ) ∧ (x : ℚ) < sx + src.width ∧
       sy ≤ (y : ℚ) ∧ (y : ℚ) < sy + src.height then
      Pixel.sourceOver (src.px (((x : ℚ) - sx).floor.toNat)
        (((y : ℚ) - sy).floor.toNat)) (dst.px x y)
    else dst.px x y
  addWatermarkData := fun c _ => c.px

/-- A browser computed-style read-back that always answers with an sRGB
colour, for evaluating the colour normalizer at concrete inputs. -/
def rgbBrowser : String → String := fun _ => "rgb(127, 127, 127)"

/-- An opaque red pixel. -/
def redPixel : Pixel := ⟨1, 0, 0, 1⟩

/-- A 1×1 canvas holding an opaque red pixel: a concrete captured 3D
overlay bitmap. -/
def redCanvas : Canvas := ⟨1, 1, fun _ _ => redPixel⟩

/-- A concrete one-canvas heap whose only canvas is a blank 1×1 Konva
bitmap. -/
def oneBlankHeap : Heap := [blankCanvas 1 1]

/-- A concrete live Konva stage of display size 2×2 rendering a blank
bitmap, for witnesses. -/
def evalStage : KStage := ⟨2, 2, fun _ _ => blankCanvas 2 2⟩

/-- A concrete environment in which every step of `exportElement`
succeeds and the 3D overlay node is absent. -/
def evalEnv : ExportEnv where
  elementExists := true
  konvaStage := some evalStage
  backgroundCapture := .ok (blankCanvas 2 2)
  previewNoise := none
  overlayNodePresent := false
  innerContainerPresent := false
  overlayRelativeX := 0
  overlayRelativeY := 0
  innerWidth := 2
  innerHeight := 2
  captureResult := .error "Element with id \"image-render-card\" not found"

/-- Concrete export options: 1×1 target at scale 1. -/
def evalOptions : ExportOptions where
  quality := 1
  scale := 1
  exportWidth := 1
  exportHeight := 1

/-- A concrete non-default perspective (rotateY = 30 degrees). -/
def rotY30 : Perspective3D :=
  { perspective := 1000, rotateX := 0, rotateY := 30, rotateZ := 0,
    translateX := 0, translateY := 0, scale := 1 }

/-- The identity perspective (all defaults). -/
def idPerspective : Perspective3D :=
  { perspective := 1000, rotateX := 0, rotateY := 0, rotateZ := 0,
    translateX := 0, translateY := 0, scale := 1 }

/-- The canvas denoted by a `(heap, id)` pair returned by a compositor
sub-operation. -/
def resultCanvas (r : Heap × CanvasId) : Canvas :=
  r.1.get r.2

/-- The heap produced by the concrete `evalEnv`/`evalOptions` export run:
the captured background, then the rasterized Konva stage. -/
def wmHeap : Heap :=
  [blankCanvas 2 2, konvaStageCanvas evalPrims evalStage 1 1 1 1]

/-- The composited final canvas of the concrete export run. -/
def wmComposite : Canvas :=
  compositeCanvases evalPrims (blankCanvas 2 2)
    (konvaStageCanvas evalPrims evalStage 1 1 1 1) 1 1 1

/-- The outcome of the concrete export run: the watermarked composite,
PNG-encoded. -/
def wmOut : ExportOutcome :=
  { dataURL := "data:image/png;base64,png",
    blobContent := applyWatermark evalPrims wmComposite }

/-! ### Helper lemmas -/

theorem heapGet_alloc_self (h : Heap) (c : Canvas) :
    (h.alloc c).1.get (h.alloc c).2 = c := by
  induction h with
  | nil => rfl
  | cons a t ih =>
    simp only [Heap.alloc, Heap.get, List.getD] at ih ⊢
    simp only [List.cons_append, List.length_cons, List.getElem?_cons_succ]
    exact ih

theorem heapGet_alloc_old (h : Heap) (c : Canvas) (j : Nat)
    (hj : j < h.length) : (h.alloc c).1.get j = h.get j := by
  induction h generalizing j with
  | nil => cases hj
  | cons a t ih =>
    cases j with
    | zero => rfl
    | succ j =>
      have : j < t.length := Nat.lt_of_succ_lt_succ hj
      simpa [Heap.alloc, Heap.get, List.getD] using ih j this

theorem heapGet_put_self (h : Heap) (c : Canvas) (i : Nat)
    (hi : i < h.length) : (h.put i c).get i = c := by
  induction h generalizing i with
  | nil => cases hi
  | cons a t ih =>
    cases i with
    | zero => rfl
    | succ i =>
      have : i < t.length := Nat.lt_of_succ_lt_succ hi
      simpa [Heap.put, Heap.get, List.getD] using ih i this

theorem heapPut_length (h : Heap) (c : Canvas) (i : Nat) :
    (h.put i c).length = h.length := by
  simp [Heap.put]

theorem dimOf_pos (q : ℚ) (hq : 1 ≤ q) : 0 < dimOf q := by
  have h1 : (1 : ℤ) ≤ q.floor := Rat.le_floor.mpr (by exact_mod_cast hq)
  unfold dimOf
  omega

theorem ratFloor_eq_intFloor (q : ℚ) : q.floor = ⌊q⌋ := by
  rw [Rat.floor_def]
  exact Rat.floor_def' q

theorem dimOf_natCast (k : Nat) : dimOf (k : ℚ) = k := by
  unfold dimOf
  rw [ratFloor_eq_intFloor, Int.floor_natCast]
  simp

theorem dimOf_one : dimOf (1 : ℚ) = 1 := by
  have h := dimOf_natCast 1
  simpa using h

theorem roundedRect_strict_subset_closed (x y w h r px0 py0 : ℚ)
    (hs : roundedRectStrictInterior x y w h r px0 py0 = true) :
    roundedRectContains x y w h r px0 py0 = true := by
  simp only [roundedRectStrictInterior, Bool.and_eq_true,
    decide_eq_true_eq] at hs
  obtain ⟨⟨⟨⟨⟨⟨⟨h1, h2⟩, h3⟩, h4⟩, h5⟩, h6⟩, h7⟩, h8⟩ := hs
  simp only [roundedRectContains, Bool.and_eq_true, decide_eq_true_eq]
  refine ⟨⟨⟨⟨⟨⟨⟨le_of_lt h1, le_of_lt h2⟩, le_of_lt h3⟩, le_of_lt h4⟩,
    ?_⟩, ?_⟩, ?_⟩, ?_⟩
  · split at h5
    · next hcond =>
        simp only [if_pos hcond]
        exact decide_eq_true (le_of_lt (by simpa using h5))
    · next hcond => simp only [if_neg hcond]
  · split at h6
    · next hcond =>
        simp only [if_pos hcond]
        exact decide_eq_true (le_of_lt (by simpa using h6))
    · next hcond => simp only [if_neg hcond]
  · split at h7
    · next hcond =>
        simp only [if_pos hcond]
        exact decide_eq_true (le_of_lt (by simpa using h7))
    · next hcond => simp only [if_neg hcond]
  · split at h8
    · next hcond =>
        simp only [if_pos hcond]
        exact decide_eq_true (le_of_lt (by simpa using h8))
    · next hcond => simp only [if_neg hcond]

theorem one_le_cast_mul (w : Nat) (s : ℚ) (hw : 0 < w) (hs : 1 ≤ s) :
    1 ≤ (w : ℚ) * s := by
  have hw1 : (1 : ℚ) ≤ (w : ℚ) := by exact_mod_cast hw
  nlinarith

/-- Normal form of a successful `exportElement` run: under the
precondition checks and with positive export dimensions and scale ≥ 1,
the pipeline returns the watermarked composite of the background and
Konva bitmaps (the Konva bitmap possibly overwritten by the 3D paste),
PNG-encoded. -/
theorem exportElement_ok_form (P : CanvasPrims) (env : ExportEnv)
    (options : ExportOptions) (p3 : Option Perspective3D)
    (src : Option String) (bb bn : ℚ) (h : Heap) (st : KStage)
    (captured : Canvas)
    (hel : env.elementExists = true)
    (hst : env.konvaStage = some st)
    (hbg : env.backgroundCapture = Except.ok captured)
    (hw : 0 < options.exportWidth) (hh : 0 < options.exportHeight)
    (hs : 1 ≤ options.scale) :
    exportElement P env options p3 src bb bn h =
      (let a1 := h.alloc captured
       let bg := exportBackgroundFinish P a1.1 a1.2
         (options.exportWidth : ℚ) (options.exportHeight : ℚ)
         options.scale bb bn env.previewNoise
       let a2 := bg.1.alloc
         (konvaStageCanvas P st options.exportWidth options.exportHeight
           options.scale options.quality)
       let H := exportElement3DStep P env options p3 src a2.1 a2.2
       let C := compositeCanvases P (H.get bg.2) (H.get a2.2)
         options.exportWidth options.exportHeight options.scale
       Except.ok (H,
         { dataURL := canvasToDataURL (applyWatermark P C) options.quality,
           blobContent := applyWatermark P C })) := by
  have hWpos : 0 < dimOf ((options.exportWidth : ℚ) * options.scale) :=
    dimOf_pos _ (one_le_cast_mul _ _ hw hs)
  have hHpos : 0 < dimOf ((options.exportHeight : ℚ) * options.scale) :=
    dimOf_pos _ (one_le_cast_mul _ _ hh hs)
  have hW : ¬(dimOf ((options.exportWidth : ℚ) * options.scale) = 0) :=
    Nat.pos_iff_ne_zero.mp hWpos
  have hH : ¬(dimOf ((options.exportHeight : ℚ) * options.scale) = 0) :=
    Nat.pos_iff_ne_zero.mp hHpos
  unfold exportElement
  rw [hel, hst, hbg]
  simp only [Bool.true_eq_false, if_false, exportKonvaStage]
  simp only [canvasToBlob, canvasToDataURL, applyWatermark,
    compositeCanvases, hW, hH, or_self, if_false, or_false, false_or]
  simp

/-! ### Claim theorems -/

/-- C1: for every perspective configuration, whenever any of rotateX,
rotateY, rotateZ, translateX, translateY is non-zero or scale is not 1,
the opacity of the flat main image fed to the Konva rasterizer is forced
to 0; when all of those fields are at their identity values the flat image
keeps its configured `imageOpacity`. -/
theorem C1_mainImage_opacity_suppression (p : Perspective3D) (io : ℚ) :
    ((p.rotateX ≠ 0 ∨ p.rotateY ≠ 0 ∨ p.rotateZ ≠ 0 ∨ p.translateX ≠ 0 ∨
        p.translateY ≠ 0 ∨ p.scale ≠ 1) →
      konvaMainImageOpacity p io = 0) ∧
    (p.rotateX = 0 → p.rotateY = 0 → p.rotateZ = 0 → p.translateX = 0 →
      p.translateY = 0 → p.scale = 1 → konvaMainImageOpacity p io = io) := by
  constructor
  · intro hne
    simp [konvaMainImageOpacity, has3DTransform, hne]
  · intro h1 h2 h3 h4 h5 h6
    simp [konvaMainImageOpacity, has3DTransform, h1, h2, h3, h4, h5, h6]

/-- Witness for C1 at concrete inputs: rotateY = 30 suppresses the flat
image; the identity perspective keeps the configured opacity. -/
theorem C1_witness :
    konvaMainImageOpacity rotY30 (9 / 10) = 0 ∧
    konvaMainImageOpacity idPerspective (9 / 10) = 9 / 10 :=
  ⟨(C1_mainImage_opacity_suppression rotY30 (9 / 10)).1
      (Or.inr (Or.inl (by norm_num [rotY30]))),
   (C1_mainImage_opacity_suppression idPerspective (9 / 10)).2
      rfl rfl rfl rfl rfl rfl⟩

/-- C5: at neutral parameter values the compositor sub-operations are
identities returning the input bitmap itself — blur with amount ≤ 0,
opacity with value ≥ 1, noise with intensity ≤ 0 all return the unchanged
heap and the input canvas id. -/
theorem C5_neutral_parameters_identity (P : CanvasPrims) (h : Heap)
    (id : CanvasId) (b op ni w ht sc : ℚ) (pn : Option Canvas)
    (hb : b ≤ 0) (hop : 1 ≤ op) (hni : ni ≤ 0) :
    applyBlurToCanvas P h id b = (h, id) ∧
    applyOpacityToCanvas h id op = (h, id) ∧
    applyNoiseToCanvas P h id ni w ht sc pn = (h, id) := by
  refine ⟨?_, ?_, ?_⟩
  · simp [applyBlurToCanvas, hb]
  · simp [applyOpacityToCanvas, hop]
  · simp [applyNoiseToCanvas, hni]

/-- Witness for C5 at blur 0, opacity 1, noise 0 on a concrete heap. -/
theorem C5_witness :
    (0 : ℚ) ≤ 0 ∧ (1 : ℚ) ≤ 1 ∧
    applyBlurToCanvas evalPrims oneBlankHeap 0 0 = (oneBlankHeap, 0) ∧
    applyOpacityToCanvas oneBlankHeap 0 1 = (oneBlankHeap, 0) ∧
    applyNoiseToCanvas evalPrims oneBlankHeap 0 0 1 1 1 none =
      (oneBlankHeap, 0) :=
  ⟨le_refl 0, le_refl 1,
   (C5_neutral_parameters_identity evalPrims oneBlankHeap 0 0 1 0 1 1 1 none
      (le_refl 0) (le_refl 1) (le_refl 0)).1,
   (C5_neutral_parameters_identity evalPrims oneBlankHeap 0 0 1 0 1 1 1 none
      (le_refl 0) (le_refl 1) (le_refl 0)).2.1,
   (C5_neutral_parameters_identity evalPrims oneBlankHeap 0 0 1 0 1 1 1 none
      (le_refl 0) (le_refl 1) (le_refl 0)).2.2⟩

/-- C10: every compositor sub-operation preserves the bitmap's pixel
dimensions, and `applyOpacityToCanvas` with opacity ≤ 0 returns a fully
transparent (never drawn) canvas of the input's dimensions. -/
theorem C10_dimension_preservation (P : CanvasPrims) (h : Heap)
    (id : CanvasId) (b op ni w ht sc : ℚ) (pn : Option Canvas) :
    (resultCanvas (applyBlurToCanvas P h id b)).width = (h.get id).width ∧
    (resultCanvas (applyBlurToCanvas P h id b)).height = (h.get id).height ∧
    (resultCanvas (applyNoiseToCanvas P h id ni w ht sc pn)).width =
      (h.get id).width ∧
    (resultCanvas (applyNoiseToCanvas P h id ni w ht sc pn)).height =
      (h.get id).height ∧
    (resultCanvas (applyOpacityToCanvas h id op)).width =
      (h.get id).width ∧
    (resultCanvas (applyOpacityToCanvas h id op)).height =
      (h.get id).height ∧
    (op ≤ 0 →
      resultCanvas (applyOpacityToCanvas h id op) =
        blankCanvas (h.get id).width (h.get id).height) := by
  have hblur :
      (resultCanvas (applyBlurToCanvas P h id b)).width =
          (h.get id).width ∧
        (resultCanvas (applyBlurToCanvas P h id b)).height =
          (h.get id).height := by
    by_cases hb : b ≤ 0
    · simp [applyBlurToCanvas, hb, resultCanvas]
    · simp [applyBlurToCanvas, hb, resultCanvas, heapGet_alloc_self]
  have hnoise :
      (resultCanvas (applyNoiseToCanvas P h id ni w ht sc pn)).width =
          (h.get id).width ∧
        (resultCanvas (applyNoiseToCanvas P h id ni w ht sc pn)).height =
          (h.get id).height := by
    by_cases hni : ni ≤ 0
    · simp [applyNoiseToCanvas, hni, resultCanvas]
    · simp [applyNoiseToCanvas, hni, resultCanvas, heapGet_alloc_self]
  have hop0 : op ≤ 0 →
      resultCanvas (applyOpacityToCanvas h id op) =
        blankCanvas (h.get id).width (h.get id).height := by
    intro hle
    have hnot : ¬(1 ≤ op) := by linarith
    simp [applyOpacityToCanvas, hnot, hle, resultCanvas, heapGet_alloc_self]
  have hopacity :
      (resultCanvas (applyOpacityToCanvas h id op)).width =
          (h.get id).width ∧
        (resultCanvas (applyOpacityToCanvas h id op)).height =
          (h.get id).height := by
    by_cases h1 : 1 ≤ op
    · simp [applyOpacityToCanvas, h1, resultCanvas]
    · by_cases h0 : op ≤ 0
      · rw [hop0 h0]; exact ⟨rfl, rfl⟩
      · simp [applyOpacityToCanvas, h1, h0, resultCanvas, heapGet_alloc_self]
  exact ⟨hblur.1, hblur.2, hnoise.1, hnoise.2, hopacity.1, hopacity.2, hop0⟩

/-- Witness for C10 (only the last conjunct carries a hypothesis): a
concrete run of all three operations on the one-canvas heap. -/
theorem C10_witness :
    (resultCanvas (applyBlurToCanvas evalPrims oneBlankHeap 0 2)).width =
      ((oneBlankHeap : Heap).get 0).width ∧
    (0 : ℚ) ≤ 0 ∧
    resultCanvas (applyOpacityToCanvas oneBlankHeap 0 0) =
      blankCanvas ((oneBlankHeap : Heap).get 0).width
        ((oneBlankHeap : Heap).get 0).height :=
  ⟨(C10_dimension_preservation evalPrims oneBlankHeap 0 2 0 0 1 1 1 none).1,
   le_refl 0,
   (C10_dimension_preservation evalPrims oneBlankHeap 0 2 0 0 1 1 1
      none).2.2.2.2.2.2 (le_refl 0)⟩

/-- C4 counterexample: pasting the captured 3D overlay mutates the main
Konva bitmap in place.  Pasting an opaque red 1×1 capture onto the blank
1×1 Konva canvas changes that canvas's pixel at (0, 0) from transparent to
red — the heap slot of the main bitmap is overwritten and no new bitmap is
allocated. -/
theorem C4_counterexample :
    ((paste3DOntoKonva evalPrims oneBlankHeap 0 redCanvas 0 0).get 0).px 0 0 ≠
      ((oneBlankHeap : Heap).get 0).px 0 0 ∧
    (paste3DOntoKonva evalPrims oneBlankHeap 0 redCanvas 0 0).length =
      (oneBlankHeap : Heap).length := by
  constructor
  · have hL :
        ((paste3DOntoKonva evalPrims oneBlankHeap 0 redCanvas 0 0).get
          0).px 0 0 = redPixel := by
      simp only [paste3DOntoKonva, redCanvas, oneBlankHeap, Heap.put,
        Heap.get, evalPrims, blankCanvas]
      norm_num [List.getD, Pixel.sourceOver, Pixel.transparent, redPixel,
        ratFloor_eq_intFloor]
    have hR : ((oneBlankHeap : Heap).get 0).px 0 0 = Pixel.transparent := by
      simp [oneBlankHeap, Heap.get, List.getD, blankCanvas]
    rw [hL, hR]
    simp only [redPixel, Pixel.transparent, ne_eq, Pixel.mk.injEq]
    norm_num
  · rfl

/-- C4 amended: the blur (amount > 0), opacity (value < 1) and noise
(intensity > 0) sub-operations each allocate and return a fresh bitmap
(the next free heap slot) and leave every previously existing bitmap —
the input included — unchanged; the 3D-overlay paste, by contrast,
allocates nothing and overwrites the main Konva bitmap's heap slot in
place with the pasted data. -/
theorem C4_fresh_bitmaps_except_3D_paste (P : CanvasPrims) (h : Heap)
    (id kid : CanvasId) (b op ni w ht sc sx sy : ℚ) (pn : Option Canvas)
    (t : Canvas) (hb : 0 < b) (hop : op < 1) (hni : 0 < ni)
    (hkid : kid < h.length) (htw : 0 < t.width) (hth : 0 < t.height) :
    (applyBlurToCanvas P h id b).2 = h.length ∧
    (∀ j, j < h.length → (applyBlurToCanvas P h id b).1.get j = h.get j) ∧
    (applyOpacityToCanvas h id op).2 = h.length ∧
    (∀ j, j < h.length → (applyOpacityToCanvas h id op).1.get j = h.get j) ∧
    (applyNoiseToCanvas P h id ni w ht sc pn).2 = h.length ∧
    (∀ j, j < h.length →
      (applyNoiseToCanvas P h id ni w ht sc pn).1.get j = h.get j) ∧
    (paste3DOntoKonva P h kid t sx sy).length = h.length ∧
    (paste3DOntoKonva P h kid t sx sy).get kid =
      { width := (h.get kid).width, height := (h.get kid).height,
        px := P.pasteData (h.get kid) t sx sy } := by
  have hb' : ¬(b ≤ 0) := not_le.mpr hb
  have hni' : ¬(ni ≤ 0) := not_le.mpr hni
  have hop' : ¬(1 ≤ op) := not_le.mpr hop
  refine ⟨?_, ?_, ?_, ?_, ?_, ?_, ?_, ?_⟩
  · simp [applyBlurToCanvas, hb', Heap.alloc]
  · intro j hj
    simp only [applyBlurToCanvas, hb', if_false]
    exact heapGet_alloc_old h _ j hj
  · by_cases h0 : op ≤ 0 <;>
      simp [applyOpacityToCanvas, hop', h0, Heap.alloc]
  · intro j hj
    by_cases h0 : op ≤ 0 <;>
      · simp only [applyOpacityToCanvas, hop', h0, if_false, if_true,
          Bool.false_eq_true]
        exact heapGet_alloc_old h _ j hj
  · simp [applyNoiseToCanvas, hni', Heap.alloc]
  · intro j hj
    simp only [applyNoiseToCanvas, hni', if_false]
    exact heapGet_alloc_old h _ j hj
  · simp [paste3DOntoKonva, htw, hth, heapPut_length]
  · simp only [paste3DOntoKonva, htw, hth, and_self, if_true]
    exact heapGet_put_self h _ kid hkid

/-- Witness for the C4 amended theorem at concrete inputs. -/
theorem C4_witness :
    (0 : ℚ) < 1 ∧ (1 / 2 : ℚ) < 1 ∧ (0 : Nat) < 1 ∧
    (applyBlurToCanvas evalPrims oneBlankHeap 0 1).2 =
      (oneBlankHeap : Heap).length ∧
    (paste3DOntoKonva evalPrims oneBlankHeap 0 redCanvas 0 0).get 0 =
      { width := ((oneBlankHeap : Heap).get 0).width,
        height := ((oneBlankHeap : Heap).get 0).height,
        px := evalPrims.pasteData ((oneBlankHeap : Heap).get 0)
                redCanvas 0 0 } :=
  ⟨by norm_num, by norm_num, by decide,
   (C4_fresh_bitmaps_except_3D_paste evalPrims oneBlankHeap 0 0 1 (1 / 2)
      1 1 1 1 0 0 none redCanvas (by norm_num) (by norm_num) (by norm_num)
      (by decide) (by decide) (by decide)).1,
   (C4_fresh_bitmaps_except_3D_paste evalPrims oneBlankHeap 0 0 1 (1 / 2)
      1 1 1 1 0 0 none redCanvas (by norm_num) (by norm_num) (by norm_num)
      (by decide) (by decide) (by decide)).2.2.2.2.2.2.2⟩

/-- C8: the eclipse frame first fills a rounded rectangle in the frame
colour over the framed bounds and then cuts a rounded-rectangle hole with
a destination-out composite: every point strictly inside the inner cutout
ends fully transparent, and every point of the ring (inside the outer
rounded rectangle but outside the closed inner cutout) carries the frame
colour unchanged — all before the image layer is drawn on top. -/
theorem C8_eclipse_ring (fw fh eb rad : ℚ) (color : Pixel) (px0 py0 : ℚ) :
    (roundedRectStrictInterior eb eb (fw - 2 * eb) (fh - 2 * eb) rad
        px0 py0 = true →
      (eclipseFramePx fw fh eb rad color px0 py0).a = 0) ∧
    (roundedRectContains 0 0 fw fh (rad + eb) px0 py0 = true →
      roundedRectContains eb eb (fw - 2 * eb) (fh - 2 * eb) rad
        px0 py0 = false →
      eclipseFramePx fw fh eb rad color px0 py0 = color) := by
  constructor
  · intro hs
    have hc := roundedRect_strict_subset_closed _ _ _ _ _ _ _ hs
    simp [eclipseFramePx, hc]
  · intro houter hinner
    simp [eclipseFramePx, houter, hinner]

/-- Witness for C8 with frame width 10 (eclipse border 12) on a 100×80
frame with corner radius 5: the centre point is cut transparent and a
point in the border band keeps the opaque frame colour. -/
theorem C8_witness :
    roundedRectStrictInterior (eclipseBorderOf 10) (eclipseBorderOf 10)
      (100 - 2 * eclipseBorderOf 10) (80 - 2 * eclipseBorderOf 10) 5
      50 40 = true ∧
    (eclipseFramePx 100 80 (eclipseBorderOf 10) 5 redPixel 50 40).a = 0 ∧
    roundedRectContains 0 0 100 80 (5 + eclipseBorderOf 10) 6 40 = true ∧
    roundedRectContains (eclipseBorderOf 10) (eclipseBorderOf 10)
      (100 - 2 * eclipseBorderOf 10) (80 - 2 * eclipseBorderOf 10) 5
      6 40 = false ∧
    eclipseFramePx 100 80 (eclipseBorderOf 10) 5 redPixel 6 40 = redPixel := by
  have hstrict : roundedRectStrictInterior (eclipseBorderOf 10)
      (eclipseBorderOf 10) (100 - 2 * eclipseBorderOf 10)
      (80 - 2 * eclipseBorderOf 10) 5 50 40 = true := by
    simp only [roundedRectStrictInterior, eclipseBorderOf]
    norm_num [min_def]
  have houter : roundedRectContains 0 0 100 80 (5 + eclipseBorderOf 10)
      6 40 = true := by
    simp only [roundedRectContains, eclipseBorderOf]
    norm_num [min_def]
  have hinner : roundedRectContains (eclipseBorderOf 10) (eclipseBorderOf 10)
      (100 - 2 * eclipseBorderOf 10) (80 - 2 * eclipseBorderOf 10) 5
      6 40 = false := by
    simp only [roundedRectContains, eclipseBorderOf]
    norm_num [min_def]
  exact ⟨hstrict,
    (C8_eclipse_ring 100 80 (eclipseBorderOf 10) 5 redPixel 50 40).1 hstrict,
    houter, hinner,
    (C8_eclipse_ring 100 80 (eclipseBorderOf 10) 5 redPixel 6 40).2
      houter hinner⟩

/-- C3: with both background blur and background noise positive, the
compositing tail of `exportBackground` is exactly the noise overlay
applied after the blur — and the resulting bitmap's pixels are the
`overlay`-blend of the untouched noise texture over the blurred
background; the texture itself never passes through the blur
primitive. -/
theorem C3_blur_then_noise (P : CanvasPrims) (h : Heap)
    (captured : CanvasId) (w ht scale bb bn : ℚ) (pn : Option Canvas)
    (hb : 0 < bb) (hn : 0 < bn) (hs : 0 < scale) :
    exportBackgroundFinish P h captured w ht scale bb bn pn =
      applyNoiseToCanvas P (applyBlurToCanvas P h captured (bb * scale)).1
        (applyBlurToCanvas P h captured (bb * scale)).2 (bn / 100)
        w ht scale pn ∧
    resultCanvas (exportBackgroundFinish P h captured w ht scale bb bn pn) =
      { width := (h.get captured).width, height := (h.get captured).height,
        px := P.overlayFill (bn / 100) (noiseTexOf P pn (bn / 100))
                { width := (h.get captured).width,
                  height := (h.get captured).height,
                  px := P.blurData (bb * scale) (h.get captured) } } := by
  have hbs : ¬(bb * scale ≤ 0) := not_le.mpr (mul_pos hb hs)
  have hn100 : ¬(bn / 100 ≤ 0) := not_le.mpr (by positivity)
  constructor
  · simp [exportBackgroundFinish, hb, hn]
  · simp only [exportBackgroundFinish, hb, if_true, hn,
      applyBlurToCanvas, hbs, if_false, applyNoiseToCanvas, hn100,
      resultCanvas, heapGet_alloc_self]

/-- Witness for C3 at concrete parameter values (blur 4, noise 50,
scale 2) on the one-canvas heap. -/
theorem C3_witness :
    (0 : ℚ) < 4 ∧ (0 : ℚ) < 50 ∧ (0 : ℚ) < 2 ∧
    exportBackgroundFinish evalPrims oneBlankHeap 0 1 1 2 4 50 none =
      applyNoiseToCanvas evalPrims
        (applyBlurToCanvas evalPrims oneBlankHeap 0 (4 * 2)).1
        (applyBlurToCanvas evalPrims oneBlankHeap 0 (4 * 2)).2 (50 / 100)
        1 1 2 none :=
  ⟨by norm_num, by norm_num, by norm_num,
   (C3_blur_then_noise evalPrims oneBlankHeap 0 1 1 2 4 50 none
      (by norm_num) (by norm_num) (by norm_num)).1⟩

/-- C7: `exportKonvaStage` on a live stage rasterizes through Konva at
pixel ratio `scale * max(exportWidth / liveWidth, exportHeight /
liveHeight)` and returns a bitmap of `exportWidth * scale` by
`exportHeight * scale` device pixels (the canvas setters truncate, so the
products are taken at their integer values). -/
theorem C7_stage_pixel_ratio_and_dims (P : CanvasPrims) (st : KStage)
    (tw th : Nat) (scale quality : ℚ) (k l : Nat)
    (_hw : 0 < st.width) (_hh : 0 < st.height)
    (hk : (tw : ℚ) * scale = (k : ℚ)) (hl : (th : ℚ) * scale = (l : ℚ)) :
    exportKonvaStage P (some st) tw th scale quality =
      .ok (konvaStageCanvas P st tw th scale quality) ∧
    konvaStageCanvas P st tw th scale quality =
      { width := k, height := l,
        px := P.resample
                (st.render
                  (scale * max ((tw : ℚ) / st.width) ((th : ℚ) / st.height))
                  quality) k l } := by
  constructor
  · rfl
  · simp only [konvaStageCanvas, hk, hl, dimOf_natCast]

/-- Witness for C7: the concrete 2×2 stage exported at 1×1, scale 1. -/
theorem C7_witness :
    (0 : ℚ) < 2 ∧ (1 : ℚ) * 1 = (1 : ℚ) ∧
    exportKonvaStage evalPrims (some evalStage) 1 1 1 1 =
      .ok (konvaStageCanvas evalPrims evalStage 1 1 1 1) ∧
    konvaStageCanvas evalPrims evalStage 1 1 1 1 =
      { width := 1, height := 1,
        px := evalPrims.resample
                (evalStage.render
                  (1 * max ((1 : ℚ) / evalStage.width)
                    ((1 : ℚ) / evalStage.height)) 1) 1 1 } :=
  ⟨by norm_num, by norm_num,
   (C7_stage_pixel_ratio_and_dims evalPrims evalStage 1 1 1 1 1 1
      (by norm_num [evalStage]) (by norm_num [evalStage])
      (by norm_num) (by norm_num)).1,
   (C7_stage_pixel_ratio_and_dims evalPrims evalStage 1 1 1 1 1 1
      (by norm_num [evalStage]) (by norm_num [evalStage])
      (by norm_num) (by norm_num)).2⟩

/-- C6 counterexample: `convertOklchToRGB` applied to the string
`"oklch(0.5)"` — which contains the `oklch` token — returns it unchanged,
because the captured group has fewer than three whitespace-separated
components and the code falls back to the original string; the output
still contains `oklch`.  The benign browser read-back plays no role. -/
theorem C6_counterexample :
    jsIncludes "oklch(0.5)" "oklch" = true ∧
    convertOklchToRGB rgbBrowser "oklch(0.5)" = "oklch(0.5)" ∧
    jsIncludes (convertOklchToRGB rgbBrowser "oklch(0.5)") "oklch" = true :=
  ⟨by decide, by decide, by decide⟩

/-- C6 amended: the normalizer's output is free of the `oklch` token
whenever detection and parsing succeed and the browser's computed value is
usable — the input contains `oklch`, the regex finds a match whose group
splits into at least three components, and the browser read-back is
non-empty and `oklch`-free; in that case the output is exactly the
browser's computed value.  On detection or parse failure the original
string is returned unchanged (the code's documented fail-open), which may
retain `oklch`. -/
theorem C6_amended_color_safety (browser : String → String) (s : String)
    (pre inner post : List Char)
    (h1 : jsIncludes s "oklch" = true)
    (h2 : findOklchMatch s.toList = some (pre, inner, post))
    (h3 : 3 ≤ (splitWS inner).length)
    (h4 : browser s ≠ "")
    (h5 : jsIncludes (browser s) "oklch" = false) :
    convertOklchToRGB browser s = browser s ∧
    jsIncludes (convertOklchToRGB browser s) "oklch" = false := by
  have heq : convertOklchToRGB browser s = browser s := by
    unfold convertOklchToRGB
    rw [h1, h2]
    simp [Nat.not_lt.mpr h3, h4]
  exact ⟨heq, heq ▸ h5⟩

/-- Witness for the C6 amended theorem on a fully parsed token. -/
theorem C6_witness :
    jsIncludes "oklch(0.2 0.1 30)" "oklch" = true ∧
    findOklchMatch "oklch(0.2 0.1 30)".toList =
      some ([], "0.2 0.1 30".toList, []) ∧
    3 ≤ (splitWS "0.2 0.1 30".toList).length ∧
    rgbBrowser "oklch(0.2 0.1 30)" ≠ "" ∧
    jsIncludes (rgbBrowser "oklch(0.2 0.1 30)") "oklch" = false ∧
    convertOklchToRGB rgbBrowser "oklch(0.2 0.1 30)" =
      rgbBrowser "oklch(0.2 0.1 30)" ∧
    jsIncludes (convertOklchToRGB rgbBrowser "oklch(0.2 0.1 30)")
      "oklch" = false :=
  ⟨by decide, by decide, by decide, by decide, by decide,
   (C6_amended_color_safety rgbBrowser "oklch(0.2 0.1 30)" []
      "0.2 0.1 30".toList [] (by decide) (by decide) (by decide)
      (by decide) (by decide)).1,
   (C6_amended_color_safety rgbBrowser "oklch(0.2 0.1 30)" []
      "0.2 0.1 30".toList [] (by decide) (by decide) (by decide)
      (by decide) (by decide)).2⟩

/-- C2: when the perspective transform is non-default and the 3D capture
step fails — the 3D overlay DOM node is absent, or the capture call
throws — `exportElement` does not propagate the failure: the run equals
the run that omits the 3D layer entirely, and it still returns an
`ok {dataURL, blob}` result (given that the remaining steps have what they
need: the render card, the stage, a captured background, positive export
dimensions and scale ≥ 1). -/
theorem C2_capture_failure_degrades (P : CanvasPrims) (env : ExportEnv)
    (options : ExportOptions) (p : Perspective3D) (src : String)
    (bb bn : ℚ) (h : Heap) (st : KStage) (captured : Canvas)
    (hel : env.elementExists = true)
    (hst : env.konvaStage = some st)
    (hbg : env.backgroundCapture = Except.ok captured)
    (hw : 0 < options.exportWidth) (hh : 0 < options.exportHeight)
    (hs : 1 ≤ options.scale)
    (hp : has3DTransform p = true)
    (hfail : env.overlayNodePresent = false ∨
      ∃ e, env.captureResult = Except.error e) :
    exportElement P env options (some p) (some src) bb bn h =
      exportElement P env options none (some src) bb bn h ∧
    ∃ r, exportElement P env options (some p) (some src) bb bn h =
      Except.ok r := by
  have hstep : ∀ (hp' : Heap) (kid : CanvasId),
      exportElement3DStep P env options (some p) (some src) hp' kid =
        hp' := by
    intro hp' kid
    unfold exportElement3DStep
    rcases hfail with hov | ⟨e, hcap⟩
    · simp [hov, hp]
    · by_cases hov : env.overlayNodePresent
      · by_cases hic : env.innerContainerPresent
        · simp [hp, hov, hic, hcap]
        · simp [hp, hov, hic]
      · simp [hp, hov]
  rw [exportElement_ok_form P env options (some p) (some src) bb bn h st
      captured hel hst hbg hw hh hs,
    exportElement_ok_form P env options none (some src) bb bn h st
      captured hel hst hbg hw hh hs]
  constructor
  · simp only [hstep]
    rfl
  · exact ⟨_, rfl⟩

/-- Witness for C2: the concrete environment has a non-default
perspective, its 3D overlay node is absent, and the export still
succeeds, equal to the 3D-less export. -/
theorem C2_witness :
    evalEnv.elementExists = true ∧
    evalEnv.konvaStage = some evalStage ∧
    evalEnv.backgroundCapture = Except.ok (blankCanvas 2 2) ∧
    0 < evalOptions.exportWidth ∧ 0 < evalOptions.exportHeight ∧
    1 ≤ evalOptions.scale ∧
    has3DTransform rotY30 = true ∧
    evalEnv.overlayNodePresent = false ∧
    exportElement evalPrims evalEnv evalOptions (some rotY30)
        (some "screenshot.png") 0 0 [] =
      exportElement evalPrims evalEnv evalOptions none
        (some "screenshot.png") 0 0 [] ∧
    ∃ r, exportElement evalPrims evalEnv evalOptions (some rotY30)
        (some "screenshot.png") 0 0 [] = Except.ok r :=
  ⟨rfl, rfl, rfl, Nat.one_pos, Nat.one_pos, le_refl 1,
   by norm_num [has3DTransform, rotY30], rfl,
   (C2_capture_failure_degrades evalPrims evalEnv evalOptions rotY30
      "screenshot.png" 0 0 [] evalStage (blankCanvas 2 2) rfl rfl rfl
      Nat.one_pos Nat.one_pos (le_refl 1)
      (by norm_num [has3DTransform, rotY30]) (Or.inl rfl)).1,
   (C2_capture_failure_degrades evalPrims evalEnv evalOptions rotY30
      "screenshot.png" 0 0 [] evalStage (blankCanvas 2 2) rfl rfl rfl
      Nat.one_pos Nat.one_pos (le_refl 1)
      (by norm_num [has3DTransform, rotY30]) (Or.inl rfl)).2⟩

/-- C9: every successful `exportElement` run returns a blob and data URL
encoding the watermarked final bitmap — `addWatermarkToCanvas` with the
options `{text: 'stage', position: 'bottom-right', textColor:
'rgba(255, 255, 255, 0.7)', backgroundColor: 'transparent'}`
(`watermarkConfig`, applied by `applyWatermark`) is drawn onto the
composited bitmap after compositing and before PNG encoding, for every
configuration. -/
theorem C9_watermark_on_every_export (P : CanvasPrims) (env : ExportEnv)
    (options : ExportOptions) (p3 : Option Perspective3D)
    (src : Option String) (bb bn : ℚ) (h : Heap) (h' : Heap)
    (out : ExportOutcome)
    (hok : exportElement P env options p3 src bb bn h =
      Except.ok (h', out)) :
    ∃ bgc kc,
      out.blobContent = applyWatermark P (compositeCanvases P bgc kc
        options.exportWidth options.exportHeight options.scale) ∧
      out.dataURL = canvasToDataURL (applyWatermark P
        (compositeCanvases P bgc kc options.exportWidth
          options.exportHeight options.scale)) options.quality := by
  unfold exportElement at hok
  split at hok
  · cases hok
  · split at hok
    · cases hok
    · split at hok
      · cases hok
      · next captured _ =>
        split at hok
        · cases hok
        · next konvaCanvas _ =>
          dsimp only [] at hok
          split at hok
          · cases hok
          · next blob hblob =>
            split at hok
            · cases hok
            · rcases hok with ⟨rfl, rfl⟩
              refine ⟨_, _, ?_, rfl⟩
              revert hblob
              unfold canvasToBlob
              split
              · intro hc; cases hc
              · intro hc
                cases hc
                rfl

/-- Witness for C9: the concrete export run succeeds and its outcome is
the watermarked composite. -/
theorem C9_witness :
    exportElement evalPrims evalEnv evalOptions none
        (some "screenshot.png") 0 0 [] = Except.ok (wmHeap, wmOut) ∧
    ∃ bgc kc,
      wmOut.blobContent = applyWatermark evalPrims
        (compositeCanvases evalPrims bgc kc evalOptions.exportWidth
          evalOptions.exportHeight evalOptions.scale) ∧
      wmOut.dataURL = canvasToDataURL (applyWatermark evalPrims
        (compositeCanvases evalPrims bgc kc evalOptions.exportWidth
          evalOptions.exportHeight evalOptions.scale))
        evalOptions.quality := by
  have hok : exportElement evalPrims evalEnv evalOptions none
      (some "screenshot.png") 0 0 [] = Except.ok (wmHeap, wmOut) := by
    rw [exportElement_ok_form evalPrims evalEnv evalOptions none
        (some "screenshot.png") 0 0 [] evalStage (blankCanvas 2 2) rfl rfl
        rfl Nat.one_pos Nat.one_pos (le_refl 1)]
    simp only [exportBackgroundFinish, exportElement3DStep]
    norm_num [Heap.alloc, Heap.get, List.getD, wmHeap, wmOut, wmComposite,
      canvasToDataURL, applyWatermark, compositeCanvases, dimOf_one,
      evalOptions, List.getElem_cons_succ, List.getElem_cons_zero]
    rfl
  exact ⟨hok,
    C9_watermark_on_every_export evalPrims evalEnv evalOptions none
      (some "screenshot.png") 0 0 [] wmHeap wmOut hok⟩

end Stage
